import Mathlib

/-!
Verification development for the WeChat admin console (ai-agent).

Shallow embedding of the dialog view (`dialog.tsx`), the chat page
(`dialogPage.tsx`), the route table (`App.tsx`) and the employee editor
(`employeeEdit.tsx`).  Datetimes are embedded as the integer value of
`new Date(s).getTime()`.  Fallible HTTP fetches are embedded as `Option`
arguments: `none` stands for a request that threw, `some r` for a
response `r`.  The stable JavaScript `Array.prototype.sort` with a numeric
comparator is embedded as `List.mergeSort` with the corresponding
boolean `le`.
-/

namespace AiAgent

/-- Epoch-milliseconds timestamp: the value of `new Date(s).getTime()`. -/
abbrev Time := Int

/-- A record of the room-list endpoints (`RoomListMessage` in `api/mysql`),
with the fields the dialog view reads. -/
structure RoomListMessage where
  room_id : String
  room_name : String
  sender_name : String
  msg_datetime : Time
  is_group : Bool
  deriving DecidableEq, Repr

/-- A record of the chat-message endpoints (`ChatMessage` in `api/mysql`),
with the fields `loadMessages` reads.  `content` and `sender_name` are
nullable in the API, hence `Option`. -/
structure ChatMessage where
  msg_id : String
  content : Option String
  msg_datetime : Time
  sender_id : String
  sender_name : Option String
  msg_type : Int
  deriving DecidableEq, Repr

/-- A WeChat account (`WxAccount` in `api/airflow`). -/
structure WxAccount where
  wxid : String
  name : String
  source_ip : String
  deriving DecidableEq, Repr

/-- The UI `Message` shape produced by the `transformedMessages` step of `loadMessages`. -/
structure Message where
  id : String
  content : String
  timestamp : Time
  isUser : Bool
  senderName : String
  msgType : Int
  deriving DecidableEq, Repr

/-- JavaScript `a || b` on a nullable string `a`: `null`/`undefined` and
the empty string are falsy, anything else is returned unchanged. -/
def jsOrString (a : Option String) (b : String) : String :=
  match a with
  | some s => if s = "" then b else s
  | none => b

/-- Comparator of `getConversations`:
`(a, b) => new Date(b.msg_datetime).getTime() - new Date(a.msg_datetime).getTime()`,
i.e. newest first. -/
def convLe (a b : RoomListMessage) : Bool :=
  b.msg_datetime ≤ a.msg_datetime

/-- Comparator of `loadMessages` / the post-send re-fetch:
`(a, b) => new Date(a.msg_datetime).getTime() - new Date(b.msg_datetime).getTime()`,
i.e. oldest first. -/
def msgLe (a b : ChatMessage) : Bool :=
  a.msg_datetime ≤ b.msg_datetime

/-- `getConversations` merge: `[...response1.data, ...response2.data].sort(...)`,
newest first. -/
def mergeConversations (resp1 resp2 : List RoomListMessage) : List RoomListMessage :=
  (resp1 ++ resp2).mergeSort convLe

/-- `loadMessages` merge:
`[...response1.data.records, ...response2.data.records].sort(...)`, oldest first. -/
def mergeChatMessages (r1 r2 : List ChatMessage) : List ChatMessage :=
  (r1 ++ r2).mergeSort msgLe

/-- The `allMessages.map(msg => ({...}))` transformation of `loadMessages`. -/
def transformMessage (selfWxid : String) (msg : ChatMessage) : Message :=
  { id := msg.msg_id
    content := jsOrString msg.content ""
    timestamp := msg.msg_datetime
    isUser := msg.sender_id = selfWxid
    senderName := jsOrString msg.sender_name msg.sender_id
    msgType := msg.msg_type }

/-- `getConversations` as a step on the `conversations` state: on a pair of
responses it stores the merged sort; when the fetch throws, the `catch`
only logs, so the previous list is kept. -/
def getConversationsStep (prev : List RoomListMessage)
    (fetched : Option (List RoomListMessage × List RoomListMessage)) :
    List RoomListMessage :=
  match fetched with
  | some (r1, r2) => mergeConversations r1 r2
  | none => prev

/-- Clicking an account button runs `setConversations([])`. -/
def accountClickConversations : List RoomListMessage := []

/-- The `DialogPage` state that `loadMessages` touches. -/
structure DialogPageLoadState where
  messages : List Message
  enabledRooms : List String
  isAIEnabled : Bool
  deriving DecidableEq, Repr

/-- `loadMessages`.  `aiValueParsed` embeds `getAIReplyListApi` followed by
`JSON.parse`: `none` = the fetch threw (outer catch, log only); `some none` =
parse failed (inner catch: rooms `[]`, AI shown disabled); `some (some rooms)`
= parsed list.  `fetched` embeds the pair of chat-message fetches: `none` =
threw (outer catch, log only, but the AI state set above survives). -/
def loadMessagesStep (prev : DialogPageLoadState)
    (conversation : Option RoomListMessage) (selfWxid : String)
    (aiValueParsed : Option (Option (List String)))
    (fetched : Option (List ChatMessage × List ChatMessage)) :
    DialogPageLoadState :=
  match conversation with
  | none => prev
  | some conv =>
    match aiValueParsed with
    | none => prev
    | some parsed =>
      let st1 : DialogPageLoadState :=
        match parsed with
        | some rooms =>
          { prev with enabledRooms := rooms,
                      isAIEnabled := rooms.contains conv.room_id }
        | none => { prev with enabledRooms := [], isAIEnabled := false }
      match fetched with
      | none => st1
      | some (r1, r2) =>
        { st1 with
            messages := (mergeChatMessages r1 r2).map (transformMessage selfWxid) }

/-- The room-list update inside the AI-toggle click handler: when enabling,
`if (!currentRooms.includes(room_id)) currentRooms.push(room_id)`; when
disabling, `indexOf` + `splice(index, 1)`, i.e. remove the first occurrence
(`List.erase` removes exactly the first occurrence, or nothing when absent,
matching `indexOf` returning `-1`). -/
def updatedRooms (enabled : Bool) (rooms : List String) (room_id : String) :
    List String :=
  if enabled then
    if room_id ∈ rooms then rooms else rooms ++ [room_id]
  else
    rooms.erase room_id

/-- Outcome of one click on the AI toggle button (`dialogPage.tsx`, the
`onClick` of the header switch). -/
structure ToggleResult where
  /-- value passed to `setIsAIEnabled` before `postAIReplyListApi` is awaited -/
  displayedBeforePost : Bool
  /-- the list passed to `postAIReplyListApi` -/
  postedRooms : List String
  /-- `isAIEnabled` after the handler finishes -/
  finalEnabled : Bool
  /-- `enabledRoomsRef.current` after the handler finishes -/
  finalRooms : List String
  deriving DecidableEq, Repr

/-- The AI-toggle click handler.  `isAIEnabled`/`rooms` are the state before
the click; `postSucceeds = false` means `postAIReplyListApi` threw, taking
the `catch` branch, which runs `setIsAIEnabled(!newAIEnabled)` but leaves
`enabledRoomsRef.current` at the already-assigned `currentRooms`. -/
def toggleClick (isAIEnabled : Bool) (rooms : List String) (room_id : String)
    (postSucceeds : Bool) : ToggleResult :=
  let newAIEnabled := !isAIEnabled
  let currentRooms := updatedRooms newAIEnabled rooms room_id
  { displayedBeforePost := newAIEnabled
    postedRooms := currentRooms
    finalEnabled := if postSucceeds then newAIEnabled else !newAIEnabled
    finalRooms := currentRooms }

/- ### Comparator facts shared by the merge theorems -/

theorem convLe_trans (a b c : RoomListMessage) :
    convLe a b → convLe b c → convLe a c := by
  intro h1 h2
  simp only [convLe, decide_eq_true_eq] at h1 h2 ⊢
  exact le_trans h2 h1

theorem convLe_total (a b : RoomListMessage) : convLe a b || convLe b a := by
  simp only [convLe, Bool.or_eq_true, decide_eq_true_eq]
  exact le_total b.msg_datetime a.msg_datetime

theorem msgLe_trans (a b c : ChatMessage) :
    msgLe a b → msgLe b c → msgLe a c := by
  intro h1 h2
  simp only [msgLe, decide_eq_true_eq] at h1 h2 ⊢
  exact le_trans h1 h2

theorem msgLe_total (a b : ChatMessage) : msgLe a b || msgLe b a := by
  simp only [msgLe, Bool.or_eq_true, decide_eq_true_eq]
  exact le_total a.msg_datetime b.msg_datetime

theorem mergeConversations_perm (r1 r2 : List RoomListMessage) :
    List.Perm (mergeConversations r1 r2) (r1 ++ r2) :=
  List.mergeSort_perm _ _

theorem mergeConversations_sorted (r1 r2 : List RoomListMessage) :
    (mergeConversations r1 r2).Pairwise
      (fun a b => b.msg_datetime ≤ a.msg_datetime) := by
  have h := List.sorted_mergeSort convLe_trans convLe_total (r1 ++ r2)
  refine h.imp ?_
  intro a b hab
  simpa [convLe] using hab

theorem mergeChatMessages_perm (r1 r2 : List ChatMessage) :
    List.Perm (mergeChatMessages r1 r2) (r1 ++ r2) :=
  List.mergeSort_perm _ _

theorem mergeChatMessages_sorted (r1 r2 : List ChatMessage) :
    (mergeChatMessages r1 r2).Pairwise
      (fun a b => a.msg_datetime ≤ b.msg_datetime) := by
  have h := List.sorted_mergeSort msgLe_trans msgLe_total (r1 ++ r2)
  refine h.imp ?_
  intro a b hab
  simpa [msgLe] using hab

/-- C1: in the dialog view both merged lists are client-side merge-sorts by
timestamp: `getConversations` sets the conversation list to exactly the
elements of the two room-list responses, concatenated, sorted newest-first;
`loadMessages` sets the message list to exactly the elements of the two
chat-message responses, concatenated, sorted oldest-first (then mapped
through the display transformation). -/
theorem dialog_merge_sort_by_timestamp
    (prev : List RoomListMessage) (r1 r2 : List RoomListMessage)
    (st : DialogPageLoadState) (conv : RoomListMessage) (selfWxid : String)
    (parsed : Option (List String)) (m1 m2 : List ChatMessage) :
    getConversationsStep prev (some (r1, r2)) = mergeConversations r1 r2 ∧
    List.Perm (mergeConversations r1 r2) (r1 ++ r2) ∧
    (mergeConversations r1 r2).Pairwise
      (fun a b => b.msg_datetime ≤ a.msg_datetime) ∧
    (loadMessagesStep st (some conv) selfWxid (some parsed) (some (m1, m2))).messages
      = (mergeChatMessages m1 m2).map (transformMessage selfWxid) ∧
    List.Perm (mergeChatMessages m1 m2) (m1 ++ m2) ∧
    (mergeChatMessages m1 m2).Pairwise
      (fun a b => a.msg_datetime ≤ b.msg_datetime) := by
  refine ⟨rfl, mergeConversations_perm r1 r2, mergeConversations_sorted r1 r2,
    ?_, mergeChatMessages_perm m1 m2, mergeChatMessages_sorted m1 m2⟩
  cases parsed <;> rfl

/- ### C2: the AI switch and the posted room list -/

/-- C2 counterexample: with a fetched enabled-rooms list that contains the
room twice (`["r", "r"]`), disabling removes only the first occurrence
(`indexOf`/`splice`), so the posted list still contains `room_id`,
contradicting the claim that after disabling the posted list does not
contain it. -/
theorem toggle_disable_duplicate_counterexample :
    (toggleClick true ["r", "r"] "r" true).postedRooms = ["r"] ∧
    "r" ∈ (toggleClick true ["r", "r"] "r" true).postedRooms := by
  constructor <;> decide

/-- C2 (amended): unconditionally, for every fetched list, the switch is on
iff `room_id` is a member of that list, and every toggle leaves the
multiplicity of every other room id unchanged; assuming the stored list
contains `room_id` at most once, the posted list contains `room_id` exactly
once after enabling (no duplicate is added when it is already present) and
not at all after disabling. -/
theorem ai_switch_iff_member_and_toggle_posts
    (st : DialogPageLoadState) (conv : RoomListMessage) (w : String)
    (rooms : List String) (h1 : rooms.count conv.room_id ≤ 1) :
    (∀ (rooms2 : List String)
        (fetched : Option (List ChatMessage × List ChatMessage)),
      (loadMessagesStep st (some conv) w (some (some rooms2)) fetched).isAIEnabled
        = rooms2.contains conv.room_id) ∧
    (toggleClick false rooms conv.room_id true).postedRooms.count conv.room_id = 1 ∧
    (toggleClick true rooms conv.room_id true).postedRooms.count conv.room_id = 0 ∧
    (∀ (rooms2 : List String) (e : Bool) (r : String), r ≠ conv.room_id →
      (toggleClick e rooms2 conv.room_id true).postedRooms.count r
        = rooms2.count r) := by
  refine ⟨?_, ?_, ?_, ?_⟩
  · intro rooms2 fetched
    cases fetched with
    | none => rfl
    | some p => cases p; rfl
  · show (updatedRooms true rooms conv.room_id).count conv.room_id = 1
    by_cases hm : conv.room_id ∈ rooms
    · have hge : 1 ≤ rooms.count conv.room_id := List.one_le_count_iff.mpr hm
      simp only [updatedRooms, hm, if_true]
      omega
    · simp only [updatedRooms, hm, if_false, if_true, List.count_append,
        List.count_eq_zero_of_not_mem hm, List.count_singleton_self]
  · show (updatedRooms false rooms conv.room_id).count conv.room_id = 0
    rw [updatedRooms]
    simp only [Bool.false_eq_true, if_false]
    rw [List.count_erase_self]
    omega
  · intro rooms2 e r hr
    show (updatedRooms (!e) rooms2 conv.room_id).count r = rooms2.count r
    rw [updatedRooms]
    cases e with
    | false =>
      simp only [Bool.not_false, if_true]
      by_cases hm : conv.room_id ∈ rooms2
      · simp [hm]
      · rw [if_neg hm, List.count_append, List.count_singleton]
        simp [Ne.symm hr]
    | true =>
      simp only [Bool.not_true, Bool.false_eq_true, if_false]
      exact List.count_erase_of_ne hr _

/-- Witness for the amended C2 theorem at a concrete state. -/
theorem ai_switch_iff_member_and_toggle_posts_witness :
    (["a", "b"] : List String).count "a" ≤ 1 ∧
    ((∀ (rooms2 : List String)
        (fetched : Option (List ChatMessage × List ChatMessage)),
      (loadMessagesStep ⟨[], [], false⟩ (some ⟨"a", "rn", "sn", 0, false⟩) "w"
          (some (some rooms2)) fetched).isAIEnabled = rooms2.contains "a") ∧
      (toggleClick false ["a", "b"] "a" true).postedRooms.count "a" = 1 ∧
      (toggleClick true ["a", "b"] "a" true).postedRooms.count "a" = 0 ∧
      (∀ (rooms2 : List String) (e : Bool) (r : String), r ≠ "a" →
        (toggleClick e rooms2 "a" true).postedRooms.count r
          = rooms2.count r)) :=
  ⟨by decide,
    ai_switch_iff_member_and_toggle_posts ⟨[], [], false⟩ ⟨"a", "rn", "sn", 0, false⟩
      "w" ["a", "b"] (by decide)⟩

/- ### C3: optimistic toggle, behaviour on post failure -/

/-- C3 counterexample: enabling AI on an empty stored list with a failing
post reverts the displayed switch but leaves `enabledRoomsRef.current` at
the optimistically updated `["r"]`, so the stored list is not restored. -/
theorem toggle_error_ref_not_restored_counterexample :
    (toggleClick false [] "r" false).finalEnabled = false ∧
    (toggleClick false [] "r" false).finalRooms ≠ [] := by
  constructor <;> decide

/-- C3 (amended): the displayed toggle state flips before the post is
awaited; on success both the displayed state and the stored list keep the
new values; on failure only the displayed toggle state is reverted to its
pre-click value, while the stored enabled-rooms list keeps the
optimistically updated value that was posted. -/
theorem toggle_optimistic_and_error_behaviour
    (e : Bool) (rooms : List String) (room_id : String) :
    (∀ ok : Bool, (toggleClick e rooms room_id ok).displayedBeforePost = !e) ∧
    (toggleClick e rooms room_id true).finalEnabled = !e ∧
    (toggleClick e rooms room_id false).finalEnabled = e ∧
    (∀ ok : Bool, (toggleClick e rooms room_id ok).finalRooms
        = updatedRooms (!e) rooms room_id) ∧
    (∀ ok : Bool, (toggleClick e rooms room_id ok).postedRooms
        = (toggleClick e rooms room_id ok).finalRooms) := by
  refine ⟨fun ok => rfl, rfl, ?_, fun ok => rfl, fun ok => rfl⟩
  simp [toggleClick]

/- ### C4: fallback behaviour on fetch / parse errors -/

/-- C4 counterexample: a failing message-history load leaves the previously
loaded messages in place (the `catch` only logs), so the message list is
*not* left empty. -/
theorem load_failure_keeps_messages_counterexample :
    (loadMessagesStep
        ⟨[⟨"m1", "hello", 5, false, "alice", 1⟩], ["room"], true⟩
        (some ⟨"room", "rn", "sn", 9, false⟩) "w"
        (some (some ["room"])) none).messages ≠ [] := by
  decide

/-- C4 (amended): every fetch call site catches its own error; the fallback
is to leave the affected state unchanged, not to clear it: a failing
conversations fetch keeps the previous list (which is empty right after an
account click, since the click runs `setConversations([])`), a failing
message-history load keeps the previous message list, a throwing
`getAIReplyListApi` leaves the whole `DialogPage` state unchanged, and a
failed `JSON.parse` of the AI-enabled-rooms value stores `[]` and shows AI
disabled. -/
theorem fetch_error_fallback
    (prevConvs : List RoomListMessage) (st : DialogPageLoadState)
    (conv : RoomListMessage) (w : String) (parsed : Option (List String))
    (fetched : Option (List ChatMessage × List ChatMessage)) :
    getConversationsStep prevConvs none = prevConvs ∧
    getConversationsStep accountClickConversations none = [] ∧
    (loadMessagesStep st (some conv) w (some parsed) none).messages
        = st.messages ∧
    loadMessagesStep st (some conv) w none fetched = st ∧
    (loadMessagesStep st (some conv) w (some none) fetched).enabledRooms = [] ∧
    (loadMessagesStep st (some conv) w (some none) fetched).isAIEnabled = false := by
  refine ⟨rfl, rfl, ?_, rfl, ?_, ?_⟩
  · cases parsed <;> rfl
  · cases fetched with
    | none => rfl
    | some p => cases p; rfl
  · cases fetched with
    | none => rfl
    | some p => cases p; rfl

/- ### Effect traces of the handlers (for the retry and guard claims) -/

/-- One observable side effect of a handler, in program order: an HTTP
request, a React state write, clearing the input box, a `console.error`,
or a `setTimeout` whose callback re-fetches the chat history. -/
inductive Eff
  | apiFetch (endpoint : String)
  | setState (field : String)
  | clearInput
  | consoleError (site : String)
  | scheduleChatRefetch (delayMs : Nat)
  deriving DecidableEq, Repr

/-- Effect trace of `fetchWxAccounts` (`dialog.tsx`): `ok = false` means
`getWxAccountListApi` threw. -/
def fetchWxAccountsTrace (ok : Bool) : List Eff :=
  [.setState "isLoading", .apiFetch "getWxAccountList"] ++
  (if ok then [.setState "wxAccountList"]
   else [.consoleError "Failed to fetch wx accounts"]) ++
  [.setState "isLoading"]

/-- Effect trace of `getConversations` (`dialog.tsx`): early return when no
account is selected; the two room-list fetches run under `Promise.all`. -/
def getConversationsTrace (accountSelected ok : Bool) : List Eff :=
  if accountSelected then
    [.apiFetch "getRoomListMessages", .apiFetch "getRoomMpListMessages"] ++
    (if ok then [.setState "conversations"]
     else [.consoleError "Error fetching conversations"]) ++
    [.setState "isLoadingConversations"]
  else []

/-- Effect trace of `pollMessageCount` (`dialog.tsx`): `changed` is whether
the polled value differs from the stored `messageCount`. -/
def pollMessageCountTrace (accountSelected ok changed : Bool) : List Eff :=
  if accountSelected then
    [.apiFetch "getUserMsgCount"] ++
    (if ok then (if changed then [.setState "messageCount"] else [])
     else [.consoleError "Error polling message count"])
  else []

/-- Effect trace of `loadMessages` (`dialogPage.tsx`). -/
def loadMessagesTrace (hasConversation aiOk parseOk fetchOk : Bool) : List Eff :=
  if hasConversation then
    [.setState "isFetchingHistory", .apiFetch "getAIReplyList"] ++
    (if aiOk then
      (if parseOk then [.setState "enabledRoomsRef", .setState "isAIEnabled"]
       else [.consoleError "Error parsing AI enabled rooms",
             .setState "enabledRoomsRef", .setState "isAIEnabled"]) ++
      [.apiFetch "getChatMessages", .apiFetch "getChatMpMessages"] ++
      (if fetchOk then [.setState "messages"]
       else [.consoleError "Error loading messages"])
     else [.consoleError "Error loading messages"]) ++
    [.setState "isFetchingHistory"]
  else []

/-- Modelled from the spec: the components whose sources are not provided
(dashboard, employee table, calendar, login, the dialog-list,
material-base and chat-memory panels, and the employee-edit children
`MaterialUpload`, `EmployeeConfig`, `EffectTest`); section 7 of the spec
states "No retry policy beyond one delayed re-fetch after sending a chat
message", so their fetch handlers schedule no delayed re-fetch. -/
def otherScreensScheduledRefetches : List Eff := []

/-- Effect trace of `fetchPrompt` (`employeeEdit.tsx`): runs its request
only under `if (wxAccount)`; `setPrompt` runs only when the response and
its `value` are truthy; the catch only logs. -/
def fetchPromptTrace (hasAccount ok hasValue : Bool) : List Eff :=
  if hasAccount then
    [.apiFetch "getWxAccountPrompt"] ++
    (if ok then (if hasValue then [.setState "prompt"] else [])
     else [.consoleError "Failed to fetch prompt"])
  else []

/-- Effect trace of `handleLogout` (`navBar.tsx`): awaits `logoutUser`
against the auth provider, then navigates to `/login`; the catch only
logs. -/
def handleLogoutTrace (ok : Bool) : List Eff :=
  [.apiFetch "logoutUser"] ++
  (if ok then [.setState "navigate"] else [.consoleError "logout failed"])

/-- Effect trace of the AI-toggle click handler (`dialogPage.tsx`). -/
def toggleClickTrace (postOk : Bool) : List Eff :=
  [.setState "isAIEnabled", .setState "enabledRoomsRef",
   .apiFetch "postAIReplyList"] ++
  (if postOk then []
   else [.consoleError "Error updating AI enabled rooms", .setState "isAIEnabled"])

/-- JavaScript `String.prototype.trim`: strip leading and trailing
whitespace (structurally, over the character list, so that it evaluates
inside the kernel). -/
def jsTrim (s : String) : String :=
  ⟨((s.data.dropWhile Char.isWhitespace).reverse.dropWhile
      Char.isWhitespace).reverse⟩

/-- Effect trace of `handleSendMessage` (`dialogPage.tsx`): the guard
`(!newMessage.trim() || !conversation || !selectedAccount)` returns with no
effect; otherwise the input is cleared, the send request issued, and only
on a successful send is a 2000 ms chat-history re-fetch scheduled. -/
def handleSendMessageTrace (newMessage : String)
    (conversation : Option RoomListMessage) (selectedAccount : Option WxAccount)
    (sendOk : Bool) : List Eff :=
  match conversation, selectedAccount with
  | some _, some _ =>
    if jsTrim newMessage = "" then []
    else
      [.clearInput, .setState "isLoading", .apiFetch "sendChatMessage"] ++
      (if sendOk then [.setState "isSending", .scheduleChatRefetch 2000]
       else [.consoleError "Error sending message"]) ++
      [.setState "isLoading"]
  | _, _ => []

/- ### C5: retry policy -/

/-- C5: after a successful send, exactly one chat-history re-fetch is
scheduled and its delay is the fixed 2000 ms; when the send fails, nothing
is scheduled; and no other fetch handler in the app — the dialog-view
handlers, the employee-edit prompt fetch, the nav-bar logout, and the
spec-modelled remaining screens — schedules any re-fetch at all, so no
failing fetch is ever re-attempted. -/
theorem send_retry_policy (msg : String) (conv : RoomListMessage)
    (acct : WxAccount) (h : jsTrim msg ≠ "") :
    (handleSendMessageTrace msg (some conv) (some acct) true).count
        (.scheduleChatRefetch 2000) = 1 ∧
    (∀ d : Nat, Eff.scheduleChatRefetch d
        ∈ handleSendMessageTrace msg (some conv) (some acct) true → d = 2000) ∧
    (∀ (m : String) (c : Option RoomListMessage) (a : Option WxAccount) (d : Nat),
      Eff.scheduleChatRefetch d ∉ handleSendMessageTrace m c a false) ∧
    (∀ (ok : Bool) (d : Nat), Eff.scheduleChatRefetch d ∉ fetchWxAccountsTrace ok) ∧
    (∀ (s ok : Bool) (d : Nat), Eff.scheduleChatRefetch d ∉ getConversationsTrace s ok) ∧
    (∀ (s ok ch : Bool) (d : Nat),
      Eff.scheduleChatRefetch d ∉ pollMessageCountTrace s ok ch) ∧
    (∀ (hc a p f : Bool) (d : Nat),
      Eff.scheduleChatRefetch d ∉ loadMessagesTrace hc a p f) ∧
    (∀ (ok : Bool) (d : Nat), Eff.scheduleChatRefetch d ∉ toggleClickTrace ok) ∧
    (∀ (ha ok hv : Bool) (d : Nat),
      Eff.scheduleChatRefetch d ∉ fetchPromptTrace ha ok hv) ∧
    (∀ (ok : Bool) (d : Nat), Eff.scheduleChatRefetch d ∉ handleLogoutTrace ok) ∧
    otherScreensScheduledRefetches = [] := by
  refine ⟨?_, ?_, ?_, ?_, ?_, ?_, ?_, ?_, ?_, ?_, rfl⟩
  · simp only [handleSendMessageTrace, if_neg h]
    decide
  · intro d hd
    simp only [handleSendMessageTrace, if_neg h] at hd
    simp at hd
    exact hd
  · intro m c a d
    cases c with
    | none => cases a <;> simp [handleSendMessageTrace]
    | some cv =>
      cases a with
      | none => simp [handleSendMessageTrace]
      | some ac =>
        simp only [handleSendMessageTrace]
        split <;> simp
  · intro ok d
    cases ok <;> simp [fetchWxAccountsTrace]
  · intro s ok d
    cases s <;> cases ok <;> simp [getConversationsTrace]
  · intro s ok ch d
    cases s <;> cases ok <;> cases ch <;> simp [pollMessageCountTrace]
  · intro hc a p f d
    cases hc <;> cases a <;> cases p <;> cases f <;> simp [loadMessagesTrace]
  · intro ok d
    cases ok <;> simp [toggleClickTrace]
  · intro ha ok hv d
    cases ha <;> cases ok <;> cases hv <;> simp [fetchPromptTrace]
  · intro ok d
    cases ok <;> simp [handleLogoutTrace]

/-- Witness for the retry-policy theorem at a concrete send. -/
theorem send_retry_policy_witness :
    jsTrim "hi" ≠ "" ∧
    (handleSendMessageTrace "hi" (some ⟨"room", "rn", "sn", 0, false⟩)
        (some ⟨"wx", "nm", "ip"⟩) true).count (.scheduleChatRefetch 2000) = 1 :=
  ⟨by decide,
    (send_retry_policy "hi" ⟨"room", "rn", "sn", 0, false⟩ ⟨"wx", "nm", "ip"⟩
      (by decide)).1⟩

/- ### C10: the send guard and input clearing -/

/-- C10: `handleSendMessage` has no effect at all (no request, no state
change) when the trimmed input is empty or no conversation or no account is
selected; when the guard passes, the input box is cleared strictly before
the send request is issued. -/
theorem send_guard_and_clear_order (msg : String) (conv : RoomListMessage)
    (acct : WxAccount) (sendOk : Bool) (h : jsTrim msg ≠ "") :
    (∀ (m : String) (c : Option RoomListMessage) (a : Option WxAccount) (ok : Bool),
        jsTrim m = "" ∨ c = none ∨ a = none → handleSendMessageTrace m c a ok = []) ∧
    Eff.clearInput ∈ handleSendMessageTrace msg (some conv) (some acct) sendOk ∧
    Eff.apiFetch "sendChatMessage"
      ∈ handleSendMessageTrace msg (some conv) (some acct) sendOk ∧
    (handleSendMessageTrace msg (some conv) (some acct) sendOk).indexOf .clearInput
      < (handleSendMessageTrace msg (some conv) (some acct) sendOk).indexOf
          (.apiFetch "sendChatMessage") := by
  refine ⟨?_, ?_, ?_, ?_⟩
  · intro m c a ok hg
    rcases hg with hg | hg | hg
    · cases c <;> cases a <;> simp [handleSendMessageTrace, hg]
    · subst hg; rfl
    · subst hg; cases c <;> rfl
  · simp only [handleSendMessageTrace, if_neg h]
    cases sendOk <;> decide
  · simp only [handleSendMessageTrace, if_neg h]
    cases sendOk <;> decide
  · simp only [handleSendMessageTrace, if_neg h]
    cases sendOk <;> decide

/-- Witness for the send-guard theorem at a concrete send. -/
theorem send_guard_and_clear_order_witness :
    jsTrim "hi" ≠ "" ∧
    Eff.clearInput ∈ handleSendMessageTrace "hi" (some ⟨"room", "rn", "sn", 0, false⟩)
      (some ⟨"wx", "nm", "ip"⟩) true :=
  ⟨by decide,
    (send_guard_and_clear_order "hi" ⟨"room", "rn", "sn", 0, false⟩
      ⟨"wx", "nm", "ip"⟩ true (by decide)).2.1⟩

/- ### C6: message-count polling -/

/-- The fixed polling interval passed to `setInterval` in `dialog.tsx`. -/
def pollIntervalMs : Nat := 3000

/-- The count update in `pollMessageCount`:
`if (newCount !== messageCount) setMessageCount(newCount)`. -/
def pollStepCount (stored polled : String) : String :=
  if polled ≠ stored then polled else stored

/-- The `[messageCount]` effect body:
`if (messageCount && selectedAccount) getConversations()`; a JavaScript
string is truthy iff it is non-empty. -/
def messageCountEffectFetches (messageCount : String) (accountSelected : Bool) :
    Bool :=
  (messageCount != "") && accountSelected

/-- Whether one poll cycle ends in a conversations re-fetch: the
`[messageCount]` effect re-runs only when the stored count actually
changed, and then applies its truthiness guard. -/
def pollTriggersRefetch (stored polled : String) (accountSelected : Bool) :
    Bool :=
  if pollStepCount stored polled ≠ stored then
    messageCountEffectFetches (pollStepCount stored polled) accountSelected
  else false

/-- One run of the `[selectedAccount, messageCount]` effect: the cleanup of
the previous run has cleared any active interval (so the result does not
depend on `_prevIntervalMs`), and a fresh `setInterval(pollMessageCount, 3000)`
is installed iff an account is selected. -/
def pollingEffectCycle (selectedAccount : Option WxAccount)
    (_prevIntervalMs : Option Nat) : Option Nat :=
  match selectedAccount with
  | some _ => some pollIntervalMs
  | none => none

/-- C6 counterexample: a poll returning the empty string differs from the
stored count `"5"`, so the stored count is updated, yet the truthiness
guard of the `[messageCount]` effect blocks the conversations re-fetch —
contradicting "whenever a poll returns a different count the list is
re-fetched". -/
theorem poll_empty_count_no_refetch_counterexample :
    pollStepCount "5" "" ≠ "5" ∧ pollTriggersRefetch "5" "" true = false := by
  constructor <;> decide

/-- C6 (amended): while an account is selected each effect cycle installs a
fresh fixed 3000-ms polling interval (the cleanup having cleared the
previous one; none is installed without a selection); a poll returning a
different count stores it, and the conversation list is re-fetched whenever
the newly stored count is non-empty. -/
theorem polling_interval_and_refetch (acct : WxAccount) (prev : Option Nat)
    (stored polled : String) (hne : polled ≠ stored) (hnonempty : polled ≠ "") :
    pollingEffectCycle (some acct) prev = some 3000 ∧
    pollingEffectCycle none prev = none ∧
    pollStepCount stored polled = polled ∧
    pollTriggersRefetch stored polled true = true := by
  refine ⟨rfl, rfl, ?_, ?_⟩
  · simp [pollStepCount, hne]
  · simp [pollTriggersRefetch, pollStepCount, messageCountEffectFetches,
      hne, hnonempty, bne_iff_ne]

/-- Witness for the polling theorem at a concrete poll. -/
theorem polling_interval_and_refetch_witness :
    (("3" : String) ≠ "" ∧ ("3" : String) ≠ "") ∧
    pollTriggersRefetch "" "3" true = true :=
  ⟨⟨by decide, by decide⟩,
    (polling_interval_and_refetch ⟨"wx", "nm", "ip"⟩ none "" "3"
      (by decide) (by decide)).2.2.2⟩

/- ### C7: the account selector -/

/-- A rendered account button: `key={account.wxid}`, label `account.name`. -/
structure AccountButton where
  key : String
  label : String
  deriving DecidableEq, Repr

/-- What the account-selector row of `Dialog` renders: the loading spinner,
the `暂无微信号` placeholder, or one button per account. -/
inductive AccountSelectorView
  | loadingIndicator
  | placeholder
  | buttons (btns : List AccountButton)
  deriving DecidableEq, Repr

/-- The account-selector row of `Dialog` (`dialog.tsx`):
`isLoading ? spinner : !wxAccountList.length ? placeholder :
wxAccountList.map(account => <button key={account.wxid}>…)`. -/
def renderAccountSelector (isLoading : Bool) (wxAccountList : List WxAccount) :
    AccountSelectorView :=
  if isLoading then .loadingIndicator
  else if wxAccountList.length = 0 then .placeholder
  else .buttons (wxAccountList.map fun a => ⟨a.wxid, a.name⟩)

/-- C7: once loading completes, an empty fetched account list renders the
placeholder, and a non-empty list renders exactly one button per account,
in order, keyed by its wxid. -/
theorem account_selector_one_button_per_account
    (accs : List WxAccount) (hne : accs ≠ []) :
    renderAccountSelector false [] = .placeholder ∧
    renderAccountSelector false accs
      = .buttons (accs.map fun a => ⟨a.wxid, a.name⟩) ∧
    (accs.map fun a => AccountButton.mk a.wxid a.name).length = accs.length ∧
    (accs.map fun a => AccountButton.mk a.wxid a.name).map (fun b => b.key)
      = accs.map (fun a => a.wxid) := by
  refine ⟨rfl, ?_, by simp, by simp⟩
  have hlen : accs.length ≠ 0 := by simpa [List.length_eq_zero] using hne
  simp [renderAccountSelector, hlen]

/-- Witness for the account-selector theorem at a one-account list. -/
theorem account_selector_one_button_per_account_witness :
    ([⟨"wx", "nm", "ip"⟩] : List WxAccount) ≠ [] ∧
    renderAccountSelector false [⟨"wx", "nm", "ip"⟩]
      = .buttons [⟨"wx", "nm"⟩] :=
  ⟨by decide,
    (account_selector_one_button_per_account [⟨"wx", "nm", "ip"⟩]
      (by decide)).2.1⟩

/- ### C8: the merges perform no deduplication -/

/-- C8: both merges keep every element of both responses: the merged length
is the sum of the two response lengths and the multiplicity of every record adds
up, so a record returned by both endpoints appears (at least) twice — and
its `msg_id`, used as the rendering key, appears at least twice among the
rendered message ids. -/
theorem merge_no_dedup
    (r1 r2 : List RoomListMessage) (d : RoomListMessage)
    (m1 m2 : List ChatMessage) (w : String) (msg : ChatMessage)
    (h1 : msg ∈ m1) (h2 : msg ∈ m2) :
    (mergeConversations r1 r2).length = r1.length + r2.length ∧
    (mergeConversations r1 r2).count d = r1.count d + r2.count d ∧
    (d ∈ r1 → d ∈ r2 → 2 ≤ (mergeConversations r1 r2).count d) ∧
    (mergeChatMessages m1 m2).length = m1.length + m2.length ∧
    (mergeChatMessages m1 m2).count msg = m1.count msg + m2.count msg ∧
    2 ≤ (mergeChatMessages m1 m2).count msg ∧
    2 ≤ (((mergeChatMessages m1 m2).map (transformMessage w)).map
          (fun x => x.id)).count msg.msg_id := by
  have hcl : (mergeConversations r1 r2).length = r1.length + r2.length := by
    rw [(mergeConversations_perm r1 r2).length_eq, List.length_append]
  have hcc : (mergeConversations r1 r2).count d = r1.count d + r2.count d := by
    rw [(mergeConversations_perm r1 r2).count_eq, List.count_append]
  have hml : (mergeChatMessages m1 m2).length = m1.length + m2.length := by
    rw [(mergeChatMessages_perm m1 m2).length_eq, List.length_append]
  have hmc : (mergeChatMessages m1 m2).count msg = m1.count msg + m2.count msg := by
    rw [(mergeChatMessages_perm m1 m2).count_eq, List.count_append]
  have hge1 : 1 ≤ m1.count msg := List.one_le_count_iff.mpr h1
  have hge2 : 1 ≤ m2.count msg := List.one_le_count_iff.mpr h2
  have hmerged : 2 ≤ (mergeChatMessages m1 m2).count msg := by omega
  refine ⟨hcl, hcc, ?_, hml, hmc, hmerged, ?_⟩
  · intro hd1 hd2
    have hg1 : 1 ≤ r1.count d := List.one_le_count_iff.mpr hd1
    have hg2 : 1 ≤ r2.count d := List.one_le_count_iff.mpr hd2
    omega
  · have hkey : ((mergeChatMessages m1 m2).map (transformMessage w)).map
        (fun x => x.id)
        = (mergeChatMessages m1 m2).map
            (fun x => (transformMessage w x).id) := by
      rw [List.map_map]
      rfl
    rw [hkey]
    have hle := List.count_le_count_map (mergeChatMessages m1 m2)
      (fun x => (transformMessage w x).id) msg
    exact le_trans hmerged hle

/-- Witness for the no-deduplication theorem at a record present in both
responses. -/
theorem merge_no_dedup_witness :
    ((⟨"m1", some "c", 5, "s", some "alice", 1⟩ : ChatMessage)
        ∈ [(⟨"m1", some "c", 5, "s", some "alice", 1⟩ : ChatMessage)] ∧
      (⟨"m1", some "c", 5, "s", some "alice", 1⟩ : ChatMessage)
        ∈ [(⟨"m1", some "c", 5, "s", some "alice", 1⟩ : ChatMessage)]) ∧
    2 ≤ (mergeChatMessages [⟨"m1", some "c", 5, "s", some "alice", 1⟩]
          [⟨"m1", some "c", 5, "s", some "alice", 1⟩]).count
            ⟨"m1", some "c", 5, "s", some "alice", 1⟩ :=
  ⟨⟨by decide, by decide⟩,
    (merge_no_dedup [] [] ⟨"r", "rn", "sn", 0, false⟩
      [⟨"m1", some "c", 5, "s", some "alice", 1⟩]
      [⟨"m1", some "c", 5, "s", some "alice", 1⟩] "w"
      ⟨"m1", some "c", 5, "s", some "alice", 1⟩
      (by decide) (by decide)).2.2.2.2.2.1⟩

/- ### C9: the employee-edit route parameter -/

/-- The route pattern of the employee editor in `App.tsx`:
`/employee/edit/:name` declares the single path parameter `name`. -/
def employeeEditRouteParam : String := "name"

/-- The params object react-router passes for a match of
`/employee/edit/:name` against `/employee/edit/<v>`: it binds exactly
the declared parameter. -/
def employeeEditRouteParams (v : String) : List (String × String) :=
  [(employeeEditRouteParam, v)]

/-- `useParams` destructuring: look a key up in the bound params. -/
def useParamsGet (params : List (String × String)) (key : String) :
    Option String :=
  (params.find? (fun p => p.1 == key)).map (fun p => p.2)

/-- `EmployeeEdit` destructures `{ wxid }` from `useParams`. -/
def employeeEditWxid (params : List (String × String)) : Option String :=
  useParamsGet params "wxid"

/-- JavaScript `a || b` on two nullable strings (empty string is falsy). -/
def jsOrOpt (a b : Option String) : Option String :=
  match a with
  | some s => if s = "" then b else some s
  | none => b

/-- The `EmployeeEdit` heading `员工编辑 - {wxAccount?.name || wxid}`:
a `null`/`undefined` interpolation renders as the empty string. -/
def employeeEditHeading (wxAccount : Option WxAccount) (wxid : Option String) :
    String :=
  "员工编辑 - " ++ (jsOrOpt (wxAccount.map (fun a => a.name)) wxid).getD ""

/-- `fetchPrompt` runs its request only under `if (wxAccount)`. -/
def fetchPromptRuns (wxAccount : Option WxAccount) : Bool :=
  wxAccount.isSome

/-- C9: the route declares `:name` but `EmployeeEdit` reads `wxid`, so the
`wxid` variable is always `undefined`; hence the heading shows the account
name only when a `wxAccount` was passed via navigation state (otherwise the
suffix is empty), and the prompt is fetched exactly when an account was
passed. -/
theorem employee_edit_route_param_mismatch
    (v : String) (a : WxAccount) :
    employeeEditWxid (employeeEditRouteParams v) = none ∧
    employeeEditHeading none (employeeEditWxid (employeeEditRouteParams v))
      = "员工编辑 - " ∧
    employeeEditHeading (some a) (employeeEditWxid (employeeEditRouteParams v))
      = "员工编辑 - " ++ (if a.name = "" then "" else a.name) ∧
    fetchPromptRuns (some a) = true ∧
    fetchPromptRuns none = false := by
  have hwx : employeeEditWxid (employeeEditRouteParams v) = none := by
    simp [employeeEditWxid, useParamsGet, employeeEditRouteParams,
      employeeEditRouteParam, List.find?]
  refine ⟨hwx, ?_, ?_, rfl, rfl⟩
  · rw [hwx]; rfl
  · rw [hwx]
    by_cases hn : a.name = ""
    · simp [employeeEditHeading, jsOrOpt, hn]
    · simp [employeeEditHeading, jsOrOpt, hn]

end AiAgent
